import Mathlib

/-!
# obs-lab: a shallow embedding of the HTTP pipeline

The development follows `server.js` and `metrics.js`:

* JavaScript values, objects, truthiness, `trim` and `split` as far as the
  handlers use them;
* the prom-client counters and the histogram declared in `metrics.js`;
* the morgan stream writer, the metrics middleware, the route handlers and the
  terminal error stage of `server.js`, composed into one `serve` step: the part
  of the application registered from the access log on;
* the middlewares registered before it, `express.json()` and `cors()`, which
  decide whether a request gets that far, composed with `serve` into `app`.

What the framework computes for a request (the matched route, the parsed body
and query, the correlation id set by the request-id middleware, the clock
readings taken while it was served) is input of the model, carried by a
`Request`.
-/

namespace ObsLab

/-! ## JavaScript values -/

/-- A JavaScript number, given by the 64 bits of its IEEE-754 double. -/
structure JsNum where
  bits : Nat
  deriving DecidableEq, Repr

/-- The number is `NaN`: exponent all ones, mantissa non-zero. -/
def JsNum.isNaN (n : JsNum) : Bool :=
  (n.bits / 2 ^ 52) % 2 ^ 11 == 2047 && n.bits % 2 ^ 52 != 0

/-- The number is `+0` or `-0`. -/
def JsNum.isZero (n : JsNum) : Bool :=
  n.bits % 2 ^ 63 == 0

/-- The double 700, the `delay` of `/api/slow`. -/
def JsNum.n700 : JsNum := ⟨0x4085E00000000000⟩

/-- Arithmetic of the JavaScript runtime that the service calls and that is not
modelled bit by bit: `Number(s)` on a string and `+` on two numbers. -/
structure JsRuntime where
  toNumber : String → JsNum
  add : JsNum → JsNum → JsNum

/-- JavaScript values as they occur in parsed JSON bodies, in log payloads and in
JSON responses. -/
inductive JVal where
  | undefined
  | null
  | bool (b : Bool)
  | num (n : JsNum)
  | str (s : String)
  | arr (items : List JVal)
  | obj (fields : List (String × JVal))

/-- A JavaScript object literal: its properties in order. -/
abbrev JsObject := List (String × JVal)

/-- Property read `o.k`: the value stored under `k`, `undefined` when absent. -/
def getProp (o : JsObject) (k : String) : JVal :=
  match o.lookup k with
  | some v => v
  | none => JVal.undefined

/-- Strict equality `v === s` against a string. -/
def JVal.strictEqStr (v : JVal) (s : String) : Bool :=
  match v with
  | JVal.str t => t == s
  | _ => false

/-- JavaScript truthiness. -/
def JVal.truthy (v : JVal) : Bool :=
  match v with
  | JVal.undefined => false
  | JVal.null => false
  | JVal.bool b => b
  | JVal.num n => !(n.isZero || n.isNaN)
  | JVal.str s => s != ""
  | JVal.arr _ => true
  | JVal.obj _ => true

/-- The expression `v || d`. -/
def JVal.orElse (v d : JVal) : JVal :=
  if v.truthy then v else d

/-- A query parameter as a value: `undefined` when absent, else its string. -/
def JVal.ofQuery (q : Option String) : JVal :=
  match q with
  | some s => JVal.str s
  | none => JVal.undefined

/-! ## Strings: `trim` and `split` -/

/-- White space and line terminators, the characters `String.prototype.trim`
strips. -/
def jsIsWhiteSpace (c : Char) : Bool :=
  c.toNat == 0x09 || c.toNat == 0x0A || c.toNat == 0x0B || c.toNat == 0x0C ||
  c.toNat == 0x0D || c.toNat == 0x20 || c.toNat == 0xA0 || c.toNat == 0x1680 ||
  (0x2000 ≤ c.toNat && c.toNat ≤ 0x200A) || c.toNat == 0x2028 || c.toNat == 0x2029 ||
  c.toNat == 0x202F || c.toNat == 0x205F || c.toNat == 0x3000 || c.toNat == 0xFEFF

/-- Trimming of a character list at both ends. -/
def trimChars (cs : List Char) : List Char :=
  ((cs.dropWhile jsIsWhiteSpace).reverse.dropWhile jsIsWhiteSpace).reverse

/-- Splitting of a character list at every occurrence of `sep`; the pieces may be
empty and there is always at least one. -/
def splitChars (sep : Char) : List Char → List (List Char)
  | [] => [[]]
  | c :: cs =>
    if c = sep then [] :: splitChars sep cs
    else
      match splitChars sep cs with
      | [] => [[c]]
      | p :: ps => (c :: p) :: ps

/-- The method `s.trim()`. -/
def jsTrim (s : String) : String := String.mk (trimChars s.data)

/-- The method `s.split(sep)` for a one-character separator. -/
def jsSplit (s : String) (sep : Char) : List String :=
  (splitChars sep s.data).map String.mk

/-- Array read `parts[i]`: `undefined` beyond the end. -/
def partAt (parts : List String) (i : Nat) : JVal :=
  match parts.get? i with
  | some s => JVal.str s
  | none => JVal.undefined

/-! ## Logger -/

/-- One record handed to the winston logger: its level and the other properties
of the payload object. -/
structure LogRecord where
  level : JVal
  fields : JsObject

/-- The call `logger.info(payload)`. -/
def loggerInfo (payload : JsObject) : LogRecord := ⟨JVal.str "info", payload⟩

/-- The call `logger.warn(payload)`. -/
def loggerWarn (payload : JsObject) : LogRecord := ⟨JVal.str "warn", payload⟩

/-- The call `logger.error(payload)`. -/
def loggerError (payload : JsObject) : LogRecord := ⟨JVal.str "error", payload⟩

/-- The correlation id a record carries. -/
def LogRecord.correlationId (r : LogRecord) : JVal := getProp r.fields "correlationId"

/-! ## Access log: morgan format and stream writer -/

/-- The line morgan renders for the format
`:method :url :status :res[content-length] - :response-time ms`, given the five
tokens. -/
def morganLine (method url status contentLength responseTime : String) : String :=
  method ++ " " ++ url ++ " " ++ status ++ " " ++ contentLength ++ " - " ++
    responseTime ++ " ms"

/-- The `write` function of the stream passed to morgan: trim, split on a space,
and log the pieces at fixed positions. -/
def streamWrite (message : String) : LogRecord :=
  let parts := jsSplit (jsTrim message) ' '
  loggerInfo
    [("message", JVal.str "HTTP Request"),
     ("method", partAt parts 0),
     ("url", partAt parts 1),
     ("status", partAt parts 2),
     ("durationMs", partAt parts 5),
     ("correlationId", JVal.str "N/A")]

/-! ## Metrics registry (`metrics.js`) -/

/-- The label set `method, route, code` of the three labelled metrics. -/
structure Labels where
  method : String
  route : String
  code : Nat
  deriving DecidableEq, Repr

/-- A prom-client counter with labels: one value per label set seen so far. -/
structure Counter where
  series : List (Labels × Nat)
  deriving DecidableEq, Repr

/-- Increment of the series list under label set `l`. -/
def incSeries : List (Labels × Nat) → Labels → List (Labels × Nat)
  | [], l => [(l, 1)]
  | (k, v) :: rest, l =>
    if k = l then (k, v + 1) :: rest else (k, v) :: incSeries rest l

/-- Value of the series list under label set `l`; 0 when never incremented. -/
def getSeries : List (Labels × Nat) → Labels → Nat
  | [], _ => 0
  | (k, v) :: rest, l => if k = l then v else getSeries rest l

/-- The fresh counter. -/
def Counter.empty : Counter := ⟨[]⟩

/-- The call `counter.inc(labels)`. -/
def Counter.inc (c : Counter) (l : Labels) : Counter := ⟨incSeries c.series l⟩

/-- The value exported for label set `l`. -/
def Counter.get (c : Counter) (l : Labels) : Nat := getSeries c.series l

/-- The label sets the counter exports a sample for. -/
def Counter.labelSets (c : Counter) : List Labels := c.series.map Prod.fst

/-- The counter summed over all the label sets it exports. -/
def Counter.total (c : Counter) : Nat := (c.labelSets.map c.get).sum

/-- Upper bounds of the histogram buckets, in seconds. -/
def buckets : List ℚ := [0.1, 0.3, 0.5, 0.7, 1, 3, 5, 7, 10]

/-- The state of one labelled histogram series: per bucket the number of
observations at most its upper bound, the sum of the observations and their
count. -/
structure HistSeries where
  bucketCounts : List Nat
  sum : ℚ
  count : Nat
  deriving DecidableEq, Repr

/-- A series without observations. -/
def HistSeries.empty : HistSeries := ⟨buckets.map (fun _ => 0), 0, 0⟩

/-- One observation of `value` seconds. -/
def HistSeries.observe (h : HistSeries) (value : ℚ) : HistSeries :=
  ⟨List.zipWith (fun bound n => if value ≤ bound then n + 1 else n) buckets h.bucketCounts,
   h.sum + value, h.count + 1⟩

/-- A prom-client histogram with labels. -/
structure Histogram where
  series : List (Labels × HistSeries)
  deriving DecidableEq, Repr

/-- Observation in the series list under label set `l`. -/
def observeSeries : List (Labels × HistSeries) → Labels → ℚ → List (Labels × HistSeries)
  | [], l, value => [(l, HistSeries.empty.observe value)]
  | (k, h) :: rest, l, value =>
    if k = l then (k, h.observe value) :: rest else (k, h) :: observeSeries rest l value

/-- Observation count of the series list under label set `l`. -/
def countSeries : List (Labels × HistSeries) → Labels → Nat
  | [], _ => 0
  | (k, h) :: rest, l => if k = l then h.count else countSeries rest l

/-- The fresh histogram. -/
def Histogram.empty : Histogram := ⟨[]⟩

/-- The call `histogram.observe(labels, value)`. -/
def Histogram.observe (h : Histogram) (l : Labels) (value : ℚ) : Histogram :=
  ⟨observeSeries h.series l value⟩

/-- The `_count` sample exported for label set `l`. -/
def Histogram.count (h : Histogram) (l : Labels) : Nat := countSeries h.series l

/-- The label sets the histogram exports samples for. -/
def Histogram.labelSets (h : Histogram) : List Labels := h.series.map Prod.fst

/-- The observation count summed over all the label sets. -/
def Histogram.totalCount (h : Histogram) : Nat := (h.labelSets.map h.count).sum

/-- The four custom metrics registered in `metrics.js`. The login-error counter
has no labels, so it is a single number. -/
structure Registry where
  httpRequestDurationMicroseconds : Histogram
  httpRequestsTotal : Counter
  httpErrorsTotal : Counter
  httpLoginErrorsTotal : Nat
  deriving DecidableEq, Repr

/-- The registry at process start. -/
def Registry.fresh : Registry := ⟨Histogram.empty, Counter.empty, Counter.empty, 0⟩

/-! ## Requests, responses, state -/

/-- The routes registered on the application. -/
inductive Route where
  | metrics
  | healthz
  | readyz
  | toggleReady
  | apiLogin
  | apiHello
  | apiSlow
  | apiError
  | clientLogs
  | apiCalc
  deriving DecidableEq, Repr

/-- The path pattern a route was registered with (`req.route.path`). -/
def Route.path : Route → String
  | Route.metrics => "/metrics"
  | Route.healthz => "/healthz"
  | Route.readyz => "/readyz"
  | Route.toggleReady => "/toggle-ready"
  | Route.apiLogin => "/api/login"
  | Route.apiHello => "/api/hello"
  | Route.apiSlow => "/api/slow"
  | Route.apiError => "/api/error"
  | Route.clientLogs => "/client-logs"
  | Route.apiCalc => "/api/calc"

/-- The query parameters `/api/calc` reads, each absent or a string. -/
structure Query where
  a : Option String
  b : Option String
  op : Option String
  deriving DecidableEq, Repr

/-- A request as the handlers and middlewares see it, together with what the
environment supplies while it is served. -/
structure Request where
  /-- Field `req.method`. -/
  method : String
  /-- Field `req.path`. -/
  path : String
  /-- The url morgan prints. -/
  url : String
  /-- Field `req.route`: the route the router matched, if any. -/
  route : Option Route
  /-- Field `req.query`. -/
  query : Query
  /-- Field `req.body`, the object left by the JSON body parser. -/
  body : JsObject
  /-- Field `req.correlationId`, set by the request-id middleware. -/
  correlationId : String
  /-- The difference of the two `Date.now()` readings of the metrics middleware. -/
  durationMs : Int
  /-- What morgan prints for `:res[content-length]`. -/
  contentLength : String
  /-- What morgan prints for `:response-time`. -/
  responseTime : String

/-- A response body. -/
inductive Body where
  | json (o : JsObject)
  | text (s : String)
  | exposition (reg : Registry)
  | notFound

/-- A response: status code and body. -/
structure Response where
  status : Nat
  body : Body

/-- A thrown `Error`. -/
structure JsError where
  message : String
  stack : String

/-- The process-wide mutable state: the readiness flag and the metrics. -/
structure State where
  isReady : Bool
  registry : Registry
  deriving DecidableEq, Repr

/-- The state at process start: `let isReady = true` and fresh metrics. -/
def State.init : State := ⟨true, Registry.fresh⟩

/-- What running a handler yields: the new state, the records it logged, and the
response it sent or the error it threw. -/
structure HandlerResult where
  state : State
  logs : List LogRecord
  result : Except JsError Response

/-! ## Route handlers (`server.js`) -/

/-- The response `res.status(code).json(o)`. -/
def jsonResponse (code : Nat) (o : JsObject) : Response := ⟨code, Body.json o⟩

/-- Handler of `GET /metrics`: the exposition of the registry. -/
def metricsHandler (st : State) (_req : Request) : HandlerResult :=
  ⟨st, [], Except.ok ⟨200, Body.exposition st.registry⟩⟩

/-- Handler of `GET /healthz`. -/
def healthz (st : State) (_req : Request) : HandlerResult :=
  ⟨st, [], Except.ok (jsonResponse 200 [("status", JVal.str "OK")])⟩

/-- Handler of `GET /readyz`. -/
def readyz (st : State) (_req : Request) : HandlerResult :=
  if st.isReady then ⟨st, [], Except.ok (jsonResponse 200 [("status", JVal.str "READY")])⟩
  else ⟨st, [], Except.ok (jsonResponse 503 [("status", JVal.str "NOT_READY")])⟩

/-- Handler of `POST /toggle-ready`. -/
def toggleReady (st : State) (req : Request) : HandlerResult :=
  let isReady := !st.isReady
  ⟨{ st with isReady := isReady },
   [loggerInfo
     [("message", JVal.str ("Readiness toggled to: " ++ (if isReady then "true" else "false"))),
      ("correlationId", JVal.str req.correlationId)]],
   Except.ok (jsonResponse 200 [("status", JVal.str (if isReady then "READY" else "NOT_READY"))])⟩

/-- Handler of `POST /api/login`. -/
def apiLogin (st : State) (req : Request) : HandlerResult :=
  let username := getProp req.body "username"
  let password := getProp req.body "password"
  if username.strictEqStr "admin" && password.strictEqStr "1234" then
    ⟨st, [], Except.ok (jsonResponse 200 [("token", JVal.str "fake-token")])⟩
  else
    ⟨{ st with registry :=
        { st.registry with httpLoginErrorsTotal := st.registry.httpLoginErrorsTotal + 1 } },
     [loggerWarn
       [("message", JVal.str "Login failed"),
        ("user", username),
        ("correlationId", JVal.str req.correlationId)]],
     Except.ok (jsonResponse 401 [("error", JVal.str "Invalid credentials")])⟩

/-- Handler of `GET /api/hello`. -/
def apiHello (st : State) (req : Request) : HandlerResult :=
  ⟨st,
   [loggerInfo
     [("message", JVal.str "Hello endpoint called"),
      ("correlationId", JVal.str req.correlationId)]],
   Except.ok (jsonResponse 200
     [("message", JVal.str "Hello World"), ("cid", JVal.str req.correlationId)])⟩

/-- Handler of `GET /api/slow`; the 700 ms wait itself is not modelled. -/
def apiSlow (st : State) (req : Request) : HandlerResult :=
  ⟨st,
   [loggerWarn
     [("message", JVal.str "Slow endpoint called"),
      ("duration", JVal.num JsNum.n700),
      ("correlationId", JVal.str req.correlationId)]],
   Except.ok (jsonResponse 200 [("message", JVal.str "Slow response after 700ms")])⟩

/-- Handler of `GET /api/error`: it throws. -/
def apiError (st : State) (_req : Request) : HandlerResult :=
  ⟨st, [], Except.error ⟨"Simulated Backend Failure", "Error: Simulated Backend Failure"⟩⟩

/-- Handler of `POST /client-logs`. -/
def clientLogs (st : State) (req : Request) : HandlerResult :=
  let level := getProp req.body "level"
  let message := getProp req.body "message"
  let stack := getProp req.body "stack"
  let meta := getProp req.body "meta"
  ⟨st,
   [⟨level.orElse (JVal.str "info"),
     [("message", message.orElse (JVal.str "Client log")),
      ("source", JVal.str "frontend"),
      ("stack", stack),
      ("meta", meta),
      ("correlationId", JVal.str req.correlationId)]⟩],
   Except.ok ⟨200, Body.text "Log received"⟩⟩

/-- The conversion `Number(q)` of a query parameter: `NaN` for `undefined`. -/
def numberOfQuery (rt : JsRuntime) (q : Option String) : JsNum :=
  match q with
  | some s => rt.toNumber s
  | none => ⟨0x7FF8000000000000⟩

/-- Handler of `GET /api/calc`. -/
def apiCalc (rt : JsRuntime) (st : State) (req : Request) : HandlerResult :=
  let a := req.query.a
  let b := req.query.b
  let op := req.query.op
  let logs :=
    [loggerInfo
      [("message", JVal.str "Calculation requested"),
       ("params", JVal.obj
          [("a", JVal.ofQuery a), ("b", JVal.ofQuery b), ("op", JVal.ofQuery op)]),
       ("correlationId", JVal.str req.correlationId)]]
  if !(JVal.ofQuery a).truthy || !(JVal.ofQuery b).truthy then
    ⟨st, logs, Except.ok (jsonResponse 400 [("error", JVal.str "Missing params")])⟩
  else
    ⟨st, logs, Except.ok (jsonResponse 200
      [("result", JVal.num (rt.add (numberOfQuery rt a) (numberOfQuery rt b)))])⟩

/-! ## Pipeline -/

/-- The terminal error-handling middleware, given the error and the value read
from `req.correlationId`: log the error, answer 500. -/
def errorHandler (err : JsError) (correlationId : JVal) : LogRecord × Response :=
  (loggerError
     [("message", JVal.str err.message),
      ("stack", JVal.str err.stack),
      ("correlationId", correlationId)],
   jsonResponse 500 [("error", JVal.str err.message)])

/-- The error-handling middleware on a request that carries its correlation id. -/
def errorStage (err : JsError) (req : Request) : LogRecord × Response :=
  errorHandler err (JVal.str req.correlationId)

/-- The label set the metrics middleware records a finished request under. -/
def finishLabels (req : Request) (statusCode : Nat) : Labels :=
  let route := match req.route with
    | some r => r.path
    | none => req.path
  ⟨req.method, route, statusCode⟩

/-- The `finish` listener of the metrics middleware. The observed value
`duration / 1000` is the exact quotient: a whole number of milliseconds lies on the
same side of every bucket bound as its double does. -/
def onFinish (reg : Registry) (req : Request) (statusCode : Nat) : Registry :=
  let duration := req.durationMs
  let labels := finishLabels req statusCode
  let reg1 := { reg with httpRequestDurationMicroseconds :=
    reg.httpRequestDurationMicroseconds.observe labels ((duration : ℚ) / 1000) }
  let reg2 := { reg1 with httpRequestsTotal := reg1.httpRequestsTotal.inc labels }
  if statusCode ≥ 400 then
    { reg2 with httpErrorsTotal := reg2.httpErrorsTotal.inc labels }
  else reg2

/-- Route dispatch: the handler of the matched route; without a match the
framework answers 404 itself. -/
def dispatch (rt : JsRuntime) (st : State) (req : Request) : HandlerResult :=
  match req.route with
  | some Route.metrics => metricsHandler st req
  | some Route.healthz => healthz st req
  | some Route.readyz => readyz st req
  | some Route.toggleReady => toggleReady st req
  | some Route.apiLogin => apiLogin st req
  | some Route.apiHello => apiHello st req
  | some Route.apiSlow => apiSlow st req
  | some Route.apiError => apiError st req
  | some Route.clientLogs => clientLogs st req
  | some Route.apiCalc => apiCalc rt st req
  | none => ⟨st, [], Except.ok ⟨404, Body.notFound⟩⟩

/-- What the error stage adds to a handler result: nothing when the handler
responded, its log record and its response when the handler threw. The framework
hands the error of a handler, thrown or the rejection of an async handler, to the
error-handling middleware. -/
def settle (h : HandlerResult) (req : Request) : List LogRecord × Response :=
  match h.result with
  | Except.ok r => ([], r)
  | Except.error e => ([(errorStage e req).1], (errorStage e req).2)

/-- Everything one served request produces. -/
structure Outcome where
  state : State
  response : Response
  handlerLogs : List LogRecord
  errorLogs : List LogRecord
  accessLog : LogRecord

/-- One request through the middlewares registered from the access log on
(`server.js` from line 26): handler, error stage, then on `finish` the metrics
middleware and the access-log line. Whether a request gets here is decided by the
middlewares registered before, see `app`. -/
def serve (rt : JsRuntime) (st : State) (req : Request) : Outcome :=
  let h := dispatch rt st req
  let s := settle h req
  let response := s.2
  ⟨{ h.state with registry := onFinish h.state.registry req response.status },
   response, h.logs, s.1,
   streamWrite (morganLine req.method req.url (toString response.status)
     req.contentLength req.responseTime ++ "\n")⟩

/-- The state after serving the requests in order. -/
def run (rt : JsRuntime) (st : State) (reqs : List Request) : State :=
  reqs.foldl (fun s r => (serve rt s r).state) st

/-! ## The whole application -/

/-- A request as it arrives, before any middleware has run: either its JSON body
cannot be parsed, and `express.json()` passes the parse error on, or body parsing
leaves the request that the later middlewares see. -/
inductive Incoming where
  | malformedBody (method path : String) (err : JsError)
  | parsed (req : Request)

/-- Everything one completed request produces. There is an access-log record only
when the request got as far as the access-log middleware. -/
structure Completed where
  state : State
  response : Response
  handlerLogs : List LogRecord
  errorLogs : List LogRecord
  accessLog : Option LogRecord

/-- One request through the application, in the order of registration
(`server.js` lines 20 to 147).

* `express.json()` comes first. The error it raises for an unparsable body goes
  straight to the error-handling middleware: the request-id, access-log and
  metrics middlewares are skipped, so `req.correlationId` is `undefined` there.
* `cors()` comes second. It answers every `OPTIONS` request itself, with 204 and
  an empty body, and passes nothing on.
* `helmet()` and `compression()` only touch the response headers and encoding;
  the request-id middleware sets `req.correlationId`. What follows is `serve`. -/
def app (rt : JsRuntime) (st : State) : Incoming → Completed
  | Incoming.malformedBody _ _ err =>
    ⟨st, (errorHandler err JVal.undefined).2, [], [(errorHandler err JVal.undefined).1], none⟩
  | Incoming.parsed req =>
    if req.method = "OPTIONS" then ⟨st, ⟨204, Body.text ""⟩, [], [], none⟩
    else
      ⟨(serve rt st req).state, (serve rt st req).response, (serve rt st req).handlerLogs,
       (serve rt st req).errorLogs, some (serve rt st req).accessLog⟩

/-- The state after the application has completed the requests in order. -/
def appRun (rt : JsRuntime) (st : State) (incs : List Incoming) : State :=
  incs.foldl (fun s i => (app rt s i).state) st

/-- Whether a request gets as far as the metrics middleware (line 45). -/
def Incoming.reachesMetrics : Incoming → Bool
  | Incoming.malformedBody _ _ _ => false
  | Incoming.parsed req => req.method != "OPTIONS"

/-! ## Concrete inputs -/

/-- A runtime to instantiate statements at concrete requests. Its two operations
are stand-ins for IEEE arithmetic; no statement depends on what they return. -/
def exampleRuntime : JsRuntime := ⟨fun s => ⟨s.length⟩, fun x y => ⟨x.bits + y.bits⟩⟩

/-- A request without query and with an empty body, for the given method, path
and matched route. -/
def exampleRequest (method path : String) (route : Option Route) : Request :=
  ⟨method, path, path, route, ⟨none, none, none⟩, [],
   "7f3c9a52-1b0e-4c55-9a59-0d6f3b2e8c11", 12, "27", "3.214"⟩

/-- A login with the accepted credentials. -/
def loginAdmin : Request :=
  { exampleRequest "POST" "/api/login" (some Route.apiLogin) with
    body := [("username", JVal.str "admin"), ("password", JVal.str "1234")] }

/-- A login whose password is the number 1234, not the string. -/
def loginNumericPassword : Request :=
  { exampleRequest "POST" "/api/login" (some Route.apiLogin) with
    body := [("username", JVal.str "admin"), ("password", JVal.num ⟨0x4093480000000000⟩)] }

/-- The request `GET /api/calc?a=2&b=3&op=mul`. -/
def calcTwoThree : Request :=
  { exampleRequest "GET" "/api/calc" (some Route.apiCalc) with
    url := "/api/calc?a=2&b=3&op=mul", query := ⟨some "2", some "3", some "mul"⟩ }

/-- The request `GET /api/calc?a=&b=3`: both parameters present, `a` empty. -/
def calcEmptyA : Request :=
  { exampleRequest "GET" "/api/calc" (some Route.apiCalc) with
    url := "/api/calc?a=&b=3", query := ⟨some "", some "3", none⟩ }

/-- The request `GET /api/hello`. -/
def helloRequest : Request := exampleRequest "GET" "/api/hello" (some Route.apiHello)

/-- The request `GET /api/error`. -/
def errorRequest : Request := exampleRequest "GET" "/api/error" (some Route.apiError)

/-- The request `GET /readyz`. -/
def readyzRequest : Request := exampleRequest "GET" "/readyz" (some Route.readyz)

/-- The request `POST /toggle-ready`. -/
def toggleRequest : Request := exampleRequest "POST" "/toggle-ready" (some Route.toggleReady)

/-- The request `GET /healthz`. -/
def healthzRequest : Request := exampleRequest "GET" "/healthz" (some Route.healthz)

/-- The request `OPTIONS /api/hello`; no route is registered for this method. -/
def optionsHello : Incoming := Incoming.parsed (exampleRequest "OPTIONS" "/api/hello" none)

/-- The request `POST /api/login` with content type `application/json` whose body
breaks off after the first key, with the error `JSON.parse` raises for it. -/
def malformedLogin : Incoming :=
  Incoming.malformedBody "POST" "/api/login"
    ⟨"Unexpected end of JSON input", "SyntaxError: Unexpected end of JSON input"⟩

/-! ## Lemmas on `split` and `trim` -/

theorem splitChars_ne_nil (sep : Char) (cs : List Char) : splitChars sep cs ≠ [] := by
  cases cs with
  | nil => simp [splitChars]
  | cons c cs =>
    by_cases h : c = sep
    · simp [splitChars, h]
    · cases hs : splitChars sep cs <;> simp [splitChars, h, hs]

theorem splitChars_token (sep : Char) (t rest : List Char) (ht : ∀ c ∈ t, c ≠ sep) :
    splitChars sep (t ++ sep :: rest) = t :: splitChars sep rest := by
  induction t with
  | nil => simp [splitChars]
  | cons c t ih =>
    have hc : c ≠ sep := ht c (List.mem_cons_self c t)
    have ih2 := ih (fun d hd => ht d (List.mem_cons_of_mem c hd))
    simp [splitChars, hc, ih2]

theorem splitChars_last (sep : Char) (t : List Char) (ht : ∀ c ∈ t, c ≠ sep) :
    splitChars sep t = [t] := by
  induction t with
  | nil => simp [splitChars]
  | cons c t ih =>
    have hc : c ≠ sep := ht c (List.mem_cons_self c t)
    have ih2 := ih (fun d hd => ht d (List.mem_cons_of_mem c hd))
    simp [splitChars, hc, ih2]

theorem trimChars_line (c : Char) (xs : List Char) (hc : jsIsWhiteSpace c = false) :
    trimChars (c :: xs ++ ['s']) = c :: xs ++ ['s'] ∧
    trimChars (c :: xs ++ ['s', '\n']) = c :: xs ++ ['s'] := by
  have hs : jsIsWhiteSpace 's' = false := by decide
  have hn : jsIsWhiteSpace '\n' = true := by decide
  constructor
  · simp [trimChars, List.dropWhile, hc, hs]
  · simp [trimChars, List.dropWhile, hc, hs, hn]

/-- The characters of a rendered access-log line. -/
theorem morganLine_data (method url status contentLength responseTime : String) :
    (morganLine method url status contentLength responseTime).data =
      method.data ++ ' ' :: (url.data ++ ' ' :: (status.data ++ ' ' ::
        (contentLength.data ++ ' ' :: '-' :: ' ' :: (responseTime.data ++ [' ', 'm', 's'])))) := by
  have h1 : (" " : String).data = [' '] := rfl
  have h2 : (" - " : String).data = [' ', '-', ' '] := rfl
  have h3 : (" ms" : String).data = [' ', 'm', 's'] := rfl
  simp [morganLine, String.data_append, h1, h2, h3]

/-- The pieces of a rendered line, trimmed, with or without its newline. -/
theorem jsSplit_morganLine (method url status contentLength responseTime : String)
    (newline : Bool)
    (hm0 : method ≠ "")
    (hm : ∀ c ∈ method.data, jsIsWhiteSpace c = false)
    (hu : ∀ c ∈ url.data, c ≠ ' ')
    (hs : ∀ c ∈ status.data, c ≠ ' ')
    (hl : ∀ c ∈ contentLength.data, c ≠ ' ')
    (hr : ∀ c ∈ responseTime.data, c ≠ ' ') :
    jsSplit (jsTrim (morganLine method url status contentLength responseTime ++
        (if newline then "\n" else ""))) ' ' =
      [method, url, status, contentLength, "-", responseTime, "ms"] := by
  have hsp : jsIsWhiteSpace ' ' = true := by decide
  have hmsp : ∀ d ∈ method.data, d ≠ ' ' := by
    intro d hd hEq
    have := hm d hd
    rw [hEq, hsp] at this
    exact Bool.noConfusion this
  obtain ⟨md⟩ := method
  cases md with
  | nil => exact absurd rfl hm0
  | cons c m =>
    have hc : jsIsWhiteSpace c = false := hm c (List.mem_cons_self c m)
    have hdash : ∀ d ∈ ['-'], d ≠ ' ' := by
      intro d hd
      simp at hd
      rw [hd]
      decide
    have hms : ∀ d ∈ ['m', 's'], d ≠ ' ' := by
      intro d hd
      simp at hd
      rcases hd with hd | hd <;> rw [hd] <;> decide
    have hline : trimChars ((morganLine ⟨c :: m⟩ url status contentLength responseTime ++
        (if newline then "\n" else "")).data) =
        (c :: m) ++ ' ' :: (url.data ++ ' ' :: (status.data ++ ' ' ::
          (contentLength.data ++ ' ' :: (['-'] ++ ' ' :: (responseTime.data ++ ' ' ::
            ['m', 's']))))) := by
      have hn : ("\n" : String).data = ['\n'] := rfl
      have he : ("" : String).data = [] := rfl
      have key := trimChars_line c (m ++ ' ' :: (url.data ++ ' ' :: (status.data ++ ' ' ::
        (contentLength.data ++ ' ' :: '-' :: ' ' :: (responseTime.data ++ [' ', 'm'])))))  hc
      cases newline
      · simp only [String.data_append, morganLine_data, Bool.false_eq_true, if_false, he]
        simpa using key.1
      · simp only [String.data_append, morganLine_data, if_true, hn]
        simpa using key.2
    unfold jsSplit jsTrim
    rw [hline, splitChars_token _ _ _ hmsp, splitChars_token _ _ _ hu,
      splitChars_token _ _ _ hs, splitChars_token _ _ _ hl, splitChars_token _ _ _ hdash,
      splitChars_token _ _ _ hr, splitChars_last _ _ hms]
    rfl

/-! ## Lemmas on counters and histograms -/

theorem getSeries_incSeries (s : List (Labels × Nat)) (l l2 : Labels) :
    getSeries (incSeries s l) l2 = getSeries s l2 + (if l2 = l then 1 else 0) := by
  induction s with
  | nil =>
    by_cases h : l = l2
    · simp [incSeries, getSeries, h]
    · have h2 : ¬ l2 = l := fun e => h e.symm
      simp [incSeries, getSeries, h, h2]
  | cons kv rest ih =>
    obtain ⟨k, v⟩ := kv
    by_cases hk : k = l
    · subst hk
      by_cases h2 : k = l2
      · simp [incSeries, getSeries, h2]
      · have h3 : ¬ l2 = k := fun e => h2 e.symm
        simp [incSeries, getSeries, h2, h3]
    · by_cases h2 : k = l2
      · subst h2
        simp [incSeries, getSeries, hk]
      · simp [incSeries, getSeries, hk, h2, ih]

theorem keys_incSeries (s : List (Labels × Nat)) (l : Labels) :
    (incSeries s l).map Prod.fst =
      if l ∈ s.map Prod.fst then s.map Prod.fst else s.map Prod.fst ++ [l] := by
  induction s with
  | nil => simp [incSeries]
  | cons kv rest ih =>
    obtain ⟨k, v⟩ := kv
    by_cases hk : k = l
    · subst hk
      simp [incSeries]
    · have hk2 : ¬ l = k := fun e => hk e.symm
      by_cases hm : l ∈ rest.map Prod.fst
      · simp only [incSeries, hk, if_false, List.map_cons, ih, hm, if_true, List.mem_cons,
          or_true]
      · simp only [incSeries, hk, if_false, List.map_cons, ih, hm, List.mem_cons, hk2,
          or_self, List.cons_append]

theorem nodup_incSeries (s : List (Labels × Nat)) (l : Labels)
    (h : (s.map Prod.fst).Nodup) : ((incSeries s l).map Prod.fst).Nodup := by
  rw [keys_incSeries]
  by_cases hm : l ∈ s.map Prod.fst
  · simp only [hm, if_true]
    exact h
  · simp only [hm, if_false]
    rw [List.nodup_append]
    refine ⟨h, List.nodup_singleton l, ?_⟩
    intro a ha hb
    simp at hb
    exact hm (hb ▸ ha)

theorem values_incSeries (s : List (Labels × Nat)) (l : Labels) :
    ((incSeries s l).map Prod.snd).sum = (s.map Prod.snd).sum + 1 := by
  induction s with
  | nil => simp [incSeries]
  | cons kv rest ih =>
    obtain ⟨k, v⟩ := kv
    by_cases hk : k = l
    · simp [incSeries, hk]
      omega
    · simp [incSeries, hk, ih]
      omega

theorem getSeries_of_not_mem (s : List (Labels × Nat)) (l : Labels)
    (h : l ∉ s.map Prod.fst) : getSeries s l = 0 := by
  induction s with
  | nil => simp [getSeries]
  | cons kv rest ih =>
    obtain ⟨k, v⟩ := kv
    simp only [List.map_cons, List.mem_cons, not_or] at h
    have hk : ¬ k = l := fun e => h.1 e.symm
    simp [getSeries, hk, ih h.2]

theorem sum_getSeries_keys (s : List (Labels × Nat)) (h : (s.map Prod.fst).Nodup) :
    ((s.map Prod.fst).map (getSeries s)).sum = (s.map Prod.snd).sum := by
  induction s with
  | nil => simp
  | cons kv rest ih =>
    obtain ⟨k, v⟩ := kv
    simp only [List.map_cons, List.nodup_cons] at h
    have hrest : (rest.map Prod.fst).map (getSeries ((k, v) :: rest)) =
        (rest.map Prod.fst).map (getSeries rest) := by
      apply List.map_congr_left
      intro a ha
      have hne : ¬ k = a := fun e => h.1 (e ▸ ha)
      simp [getSeries, hne]
    simp only [List.map_cons, List.sum_cons, hrest, ih h.2]
    simp [getSeries]

theorem Counter.total_inc (c : Counter) (l : Labels) (h : c.labelSets.Nodup) :
    (c.inc l).total = c.total + 1 := by
  unfold Counter.total Counter.get Counter.labelSets Counter.inc
  unfold Counter.labelSets at h
  rw [sum_getSeries_keys _ (nodup_incSeries _ l h), sum_getSeries_keys _ h, values_incSeries]

theorem HistSeries.count_observe (h : HistSeries) (value : ℚ) :
    (h.observe value).count = h.count + 1 := rfl

theorem countSeries_observeSeries (s : List (Labels × HistSeries)) (l l2 : Labels) (value : ℚ) :
    countSeries (observeSeries s l value) l2 = countSeries s l2 + (if l2 = l then 1 else 0) := by
  induction s with
  | nil =>
    by_cases h : l = l2
    · simp [observeSeries, countSeries, h, HistSeries.observe, HistSeries.empty]
    · have h2 : ¬ l2 = l := fun e => h e.symm
      simp [observeSeries, countSeries, h, h2]
  | cons kv rest ih =>
    obtain ⟨k, v⟩ := kv
    by_cases hk : k = l
    · subst hk
      by_cases h2 : k = l2
      · simp [observeSeries, countSeries, h2, HistSeries.count_observe]
      · have h3 : ¬ l2 = k := fun e => h2 e.symm
        simp [observeSeries, countSeries, h2, h3]
    · by_cases h2 : k = l2
      · subst h2
        simp [observeSeries, countSeries, hk]
      · simp [observeSeries, countSeries, hk, h2, ih]

theorem keys_observeSeries (s : List (Labels × HistSeries)) (l : Labels) (value : ℚ) :
    (observeSeries s l value).map Prod.fst =
      if l ∈ s.map Prod.fst then s.map Prod.fst else s.map Prod.fst ++ [l] := by
  induction s with
  | nil => simp [observeSeries]
  | cons kv rest ih =>
    obtain ⟨k, v⟩ := kv
    by_cases hk : k = l
    · subst hk
      simp [observeSeries]
    · have hk2 : ¬ l = k := fun e => hk e.symm
      by_cases hm : l ∈ rest.map Prod.fst
      · simp only [observeSeries, hk, if_false, List.map_cons, ih, hm, if_true, List.mem_cons,
          or_true]
      · simp only [observeSeries, hk, if_false, List.map_cons, ih, hm, List.mem_cons, hk2,
          or_self, List.cons_append]

theorem nodup_observeSeries (s : List (Labels × HistSeries)) (l : Labels) (value : ℚ)
    (h : (s.map Prod.fst).Nodup) : ((observeSeries s l value).map Prod.fst).Nodup := by
  rw [keys_observeSeries]
  by_cases hm : l ∈ s.map Prod.fst
  · simp only [hm, if_true]
    exact h
  · simp only [hm, if_false]
    rw [List.nodup_append]
    refine ⟨h, List.nodup_singleton l, ?_⟩
    intro a ha hb
    simp at hb
    exact hm (hb ▸ ha)

theorem counts_observeSeries (s : List (Labels × HistSeries)) (l : Labels) (value : ℚ) :
    ((observeSeries s l value).map (fun kv => kv.2.count)).sum =
      (s.map (fun kv => kv.2.count)).sum + 1 := by
  induction s with
  | nil => simp [observeSeries, HistSeries.observe, HistSeries.empty]
  | cons kv rest ih =>
    obtain ⟨k, v⟩ := kv
    by_cases hk : k = l
    · simp [observeSeries, hk, HistSeries.count_observe]
      omega
    · simp [observeSeries, hk, ih]
      omega

theorem countSeries_of_not_mem (s : List (Labels × HistSeries)) (l : Labels)
    (h : l ∉ s.map Prod.fst) : countSeries s l = 0 := by
  induction s with
  | nil => simp [countSeries]
  | cons kv rest ih =>
    obtain ⟨k, v⟩ := kv
    simp only [List.map_cons, List.mem_cons, not_or] at h
    have hk : ¬ k = l := fun e => h.1 e.symm
    simp [countSeries, hk, ih h.2]

theorem sum_countSeries_keys (s : List (Labels × HistSeries)) (h : (s.map Prod.fst).Nodup) :
    ((s.map Prod.fst).map (countSeries s)).sum = (s.map (fun kv => kv.2.count)).sum := by
  induction s with
  | nil => simp
  | cons kv rest ih =>
    obtain ⟨k, v⟩ := kv
    simp only [List.map_cons, List.nodup_cons] at h
    have hrest : (rest.map Prod.fst).map (countSeries ((k, v) :: rest)) =
        (rest.map Prod.fst).map (countSeries rest) := by
      apply List.map_congr_left
      intro a ha
      have hne : ¬ k = a := fun e => h.1 (e ▸ ha)
      simp [countSeries, hne]
    simp only [List.map_cons, List.sum_cons, hrest, ih h.2]
    simp [countSeries]

theorem Histogram.totalCount_observe (h : Histogram) (l : Labels) (value : ℚ)
    (hn : h.labelSets.Nodup) : (h.observe l value).totalCount = h.totalCount + 1 := by
  unfold Histogram.totalCount Histogram.count Histogram.labelSets Histogram.observe
  unfold Histogram.labelSets at hn
  rw [sum_countSeries_keys _ (nodup_observeSeries _ l value hn), sum_countSeries_keys _ hn,
    counts_observeSeries]

/-! ## Lemmas on the pipeline -/

theorem onFinish_requests (reg : Registry) (req : Request) (code : Nat) :
    (onFinish reg req code).httpRequestsTotal =
      reg.httpRequestsTotal.inc (finishLabels req code) := by
  unfold onFinish
  split <;> rfl

theorem onFinish_duration (reg : Registry) (req : Request) (code : Nat) :
    (onFinish reg req code).httpRequestDurationMicroseconds =
      reg.httpRequestDurationMicroseconds.observe (finishLabels req code)
        ((req.durationMs : ℚ) / 1000) := by
  unfold onFinish
  split <;> rfl

theorem onFinish_errors (reg : Registry) (req : Request) (code : Nat) :
    (onFinish reg req code).httpErrorsTotal =
      if code ≥ 400 then reg.httpErrorsTotal.inc (finishLabels req code)
      else reg.httpErrorsTotal := by
  unfold onFinish
  split <;> rfl

theorem onFinish_login (reg : Registry) (req : Request) (code : Nat) :
    (onFinish reg req code).httpLoginErrorsTotal = reg.httpLoginErrorsTotal := by
  unfold onFinish
  split <;> rfl

theorem dispatch_registry (rt : JsRuntime) (st : State) (req : Request) :
    (dispatch rt st req).state.registry.httpRequestsTotal = st.registry.httpRequestsTotal ∧
    (dispatch rt st req).state.registry.httpErrorsTotal = st.registry.httpErrorsTotal ∧
    (dispatch rt st req).state.registry.httpRequestDurationMicroseconds =
      st.registry.httpRequestDurationMicroseconds := by
  unfold dispatch
  split <;> try exact ⟨rfl, rfl, rfl⟩
  · unfold readyz
    split <;> exact ⟨rfl, rfl, rfl⟩
  · unfold apiLogin
    simp only
    split <;> exact ⟨rfl, rfl, rfl⟩
  · unfold apiCalc
    simp only
    split <;> exact ⟨rfl, rfl, rfl⟩

theorem dispatch_isReady (rt : JsRuntime) (st : State) (req : Request) :
    (dispatch rt st req).state.isReady =
      if req.route = some Route.toggleReady then !st.isReady else st.isReady := by
  unfold dispatch
  split <;> simp_all [metricsHandler, healthz, toggleReady, apiHello, apiSlow, apiError,
    clientLogs]
  · unfold readyz
    split <;> rfl
  · unfold apiLogin
    simp only
    split <;> rfl
  · unfold apiCalc
    simp only
    split <;> rfl

theorem serve_requests (rt : JsRuntime) (st : State) (req : Request) :
    (serve rt st req).state.registry.httpRequestsTotal =
      st.registry.httpRequestsTotal.inc (finishLabels req (serve rt st req).response.status) := by
  simp only [serve, onFinish_requests, (dispatch_registry rt st req).1]

theorem serve_duration (rt : JsRuntime) (st : State) (req : Request) :
    (serve rt st req).state.registry.httpRequestDurationMicroseconds =
      st.registry.httpRequestDurationMicroseconds.observe
        (finishLabels req (serve rt st req).response.status) ((req.durationMs : ℚ) / 1000) := by
  simp only [serve, onFinish_duration, (dispatch_registry rt st req).2.2]

theorem serve_errors (rt : JsRuntime) (st : State) (req : Request) :
    (serve rt st req).state.registry.httpErrorsTotal =
      if (serve rt st req).response.status ≥ 400 then
        st.registry.httpErrorsTotal.inc (finishLabels req (serve rt st req).response.status)
      else st.registry.httpErrorsTotal := by
  simp only [serve, onFinish_errors, (dispatch_registry rt st req).2.1]

theorem serve_isReady (rt : JsRuntime) (st : State) (req : Request) :
    (serve rt st req).state.isReady =
      if req.route = some Route.toggleReady then !st.isReady else st.isReady := by
  simp only [serve, dispatch_isReady]

theorem run_cons (rt : JsRuntime) (st : State) (req : Request) (reqs : List Request) :
    run rt st (req :: reqs) = run rt (serve rt st req).state reqs := rfl

theorem run_totals (rt : JsRuntime) (reqs : List Request) (st : State)
    (h1 : st.registry.httpRequestsTotal.labelSets.Nodup)
    (h2 : st.registry.httpRequestDurationMicroseconds.labelSets.Nodup) :
    (run rt st reqs).registry.httpRequestsTotal.labelSets.Nodup ∧
    (run rt st reqs).registry.httpRequestDurationMicroseconds.labelSets.Nodup ∧
    (run rt st reqs).registry.httpRequestsTotal.total =
      st.registry.httpRequestsTotal.total + reqs.length ∧
    (run rt st reqs).registry.httpRequestDurationMicroseconds.totalCount =
      st.registry.httpRequestDurationMicroseconds.totalCount + reqs.length := by
  induction reqs generalizing st with
  | nil => exact ⟨h1, h2, rfl, rfl⟩
  | cons req reqs ih =>
    have n1 : (serve rt st req).state.registry.httpRequestsTotal.labelSets.Nodup := by
      rw [serve_requests]
      exact nodup_incSeries _ _ h1
    have n2 : (serve rt st req).state.registry.httpRequestDurationMicroseconds.labelSets.Nodup := by
      rw [serve_duration]
      exact nodup_observeSeries _ _ _ h2
    obtain ⟨a, b, c, d⟩ := ih (serve rt st req).state n1 n2
    refine ⟨a, b, ?_, ?_⟩
    · rw [run_cons, c, serve_requests, Counter.total_inc _ _ h1, List.length_cons]
      omega
    · rw [run_cons, d, serve_duration, Histogram.totalCount_observe _ _ _ h2, List.length_cons]
      omega

theorem run_errors_invariant (rt : JsRuntime) (reqs : List Request) (st : State)
    (h : ∀ l, st.registry.httpErrorsTotal.get l =
      if 400 ≤ l.code then st.registry.httpRequestsTotal.get l else 0) :
    ∀ l, (run rt st reqs).registry.httpErrorsTotal.get l =
      if 400 ≤ l.code then (run rt st reqs).registry.httpRequestsTotal.get l else 0 := by
  induction reqs generalizing st with
  | nil => exact h
  | cons req reqs ih =>
    rw [run_cons]
    apply ih
    intro l
    rw [serve_errors, serve_requests]
    have hl := h l
    by_cases hc : (serve rt st req).response.status ≥ 400
    · simp only [hc, if_true, Counter.get, Counter.inc, getSeries_incSeries]
      simp only [Counter.get] at hl
      by_cases he : l = finishLabels req (serve rt st req).response.status
      · have hcode : 400 ≤ l.code := by rw [he]; exact hc
        simp only [hcode, if_true] at hl ⊢
        rw [hl]
      · by_cases hcode : 400 ≤ l.code
        · simp only [hcode, if_true] at hl ⊢
          rw [hl]
        · simp only [hcode, if_false] at hl ⊢
          simp [hl, he]
    · simp only [hc, if_false, Counter.get, Counter.inc, getSeries_incSeries]
      simp only [Counter.get] at hl
      by_cases he : l = finishLabels req (serve rt st req).response.status
      · have hcode : ¬ 400 ≤ l.code := by rw [he]; exact hc
        simp only [hcode, if_false] at hl ⊢
        exact hl
      · by_cases hcode : 400 ≤ l.code
        · simp only [hcode, if_true] at hl ⊢
          simp [hl, he]
        · simp only [hcode, if_false] at hl ⊢
          exact hl

theorem serve_response (rt : JsRuntime) (st : State) (req : Request) :
    (serve rt st req).response = (settle (dispatch rt st req) req).2 := rfl

theorem serve_login (rt : JsRuntime) (st : State) (req : Request) :
    (serve rt st req).state.registry.httpLoginErrorsTotal =
      (dispatch rt st req).state.registry.httpLoginErrorsTotal := by
  simp only [serve, onFinish_login]

theorem strictEqStr_iff (v : JVal) (s : String) : v.strictEqStr s = true ↔ v = JVal.str s := by
  cases v <;> simp [JVal.strictEqStr]

theorem run_isReady (rt : JsRuntime) (reqs : List Request) (st : State) :
    (run rt st reqs).isReady =
      if (reqs.countP (fun r => decide (r.route = some Route.toggleReady))) % 2 = 0
      then st.isReady else !st.isReady := by
  induction reqs generalizing st with
  | nil => simp [run]
  | cons req reqs ih =>
    rw [run_cons, ih, serve_isReady]
    by_cases hr : req.route = some Route.toggleReady
    · have hcount : (req :: reqs).countP (fun r => decide (r.route = some Route.toggleReady)) =
          reqs.countP (fun r => decide (r.route = some Route.toggleReady)) + 1 := by
        simp [List.countP_cons, hr]
      rw [hcount]
      simp only [hr, if_true]
      by_cases hp : (reqs.countP (fun r => decide (r.route = some Route.toggleReady))) % 2 = 0
      · have hp2 : ¬ ((reqs.countP (fun r => decide (r.route = some Route.toggleReady))) + 1) % 2
            = 0 := by omega
        simp only [hp, hp2, if_true, if_false]
      · have hp2 : ((reqs.countP (fun r => decide (r.route = some Route.toggleReady))) + 1) % 2
            = 0 := by omega
        simp only [hp, hp2, if_true, if_false, Bool.not_not]
    · have hcount : (req :: reqs).countP (fun r => decide (r.route = some Route.toggleReady)) =
          reqs.countP (fun r => decide (r.route = some Route.toggleReady)) := by
        simp [List.countP_cons, hr]
      rw [hcount]
      simp only [hr, if_false]

theorem truthy_ofQuery (q : Option String) :
    (JVal.ofQuery q).truthy = false ↔ (q = none ∨ q = some "") := by
  cases q with
  | none => simp [JVal.ofQuery, JVal.truthy]
  | some s => simp [JVal.ofQuery, JVal.truthy]

theorem apiCalc_result (rt : JsRuntime) (st : State) (req : Request) :
    (apiCalc rt st req).result =
      if (req.query.a = none ∨ req.query.a = some "") ∨
          (req.query.b = none ∨ req.query.b = some "") then
        Except.ok (jsonResponse 400 [("error", JVal.str "Missing params")])
      else
        Except.ok (jsonResponse 200 [("result", JVal.num
          (rt.add (numberOfQuery rt req.query.a) (numberOfQuery rt req.query.b)))]) := by
  unfold apiCalc
  simp only
  by_cases hc : (req.query.a = none ∨ req.query.a = some "") ∨
      (req.query.b = none ∨ req.query.b = some "")
  · have hb : (!(JVal.ofQuery req.query.a).truthy || !(JVal.ofQuery req.query.b).truthy) = true := by
      rcases hc with hc | hc
      · simp [(truthy_ofQuery _).mpr hc]
      · simp [(truthy_ofQuery _).mpr hc]
    rw [if_pos hb, if_pos hc]
  · have hb : ¬ (!(JVal.ofQuery req.query.a).truthy || !(JVal.ofQuery req.query.b).truthy) = true := by
      intro hb
      apply hc
      simp only [Bool.or_eq_true, Bool.not_eq_true', truthy_ofQuery] at hb
      exact hb
    rw [if_neg hb, if_neg hc]

theorem serve_calc_response (rt : JsRuntime) (st : State) (req : Request)
    (h : req.route = some Route.apiCalc) :
    (serve rt st req).response =
      if (req.query.a = none ∨ req.query.a = some "") ∨
          (req.query.b = none ∨ req.query.b = some "") then
        jsonResponse 400 [("error", JVal.str "Missing params")]
      else
        jsonResponse 200 [("result", JVal.num
          (rt.add (numberOfQuery rt req.query.a) (numberOfQuery rt req.query.b)))] := by
  have hd : dispatch rt st req = apiCalc rt st req := by simp [dispatch, h]
  rw [serve_response, hd]
  unfold settle
  rw [apiCalc_result]
  by_cases hc : (req.query.a = none ∨ req.query.a = some "") ∨
      (req.query.b = none ∨ req.query.b = some "")
  · rw [if_pos hc, if_pos hc]
  · rw [if_neg hc, if_neg hc]

theorem dispatch_result_of_isReady (rt : JsRuntime) (st1 st2 : State) (req : Request)
    (hr : st1.isReady = st2.isReady) (hm : req.route ≠ some Route.metrics) :
    (dispatch rt st1 req).result = (dispatch rt st2 req).result := by
  unfold dispatch
  split
  · exact absurd (by assumption) hm
  · rfl
  · unfold readyz
    rw [hr]
    split <;> rfl
  · simp only [toggleReady, hr]
  · unfold apiLogin
    simp only
    split <;> rfl
  · rfl
  · rfl
  · rfl
  · rfl
  · unfold apiCalc
    simp only
    split <;> rfl
  · rfl

theorem serve_accessLog_correlationId (rt : JsRuntime) (st : State) (req : Request) :
    (serve rt st req).accessLog.correlationId = JVal.str "N/A" := by
  simp [serve, streamWrite, loggerInfo, LogRecord.correlationId, getProp, List.lookup]

theorem dispatch_logs_correlationId (rt : JsRuntime) (st : State) (req : Request) :
    ∀ r ∈ (dispatch rt st req).logs, r.correlationId = JVal.str req.correlationId := by
  intro r hr
  unfold dispatch at hr
  split at hr
  · simp [metricsHandler] at hr
  · simp [healthz] at hr
  · unfold readyz at hr
    split at hr <;> simp at hr
  · simp only [toggleReady, List.mem_singleton] at hr
    subst hr
    simp [loggerInfo, LogRecord.correlationId, getProp, List.lookup]
  · unfold apiLogin at hr
    simp only at hr
    split at hr
    · simp at hr
    · simp only [List.mem_singleton] at hr
      subst hr
      simp [loggerWarn, LogRecord.correlationId, getProp, List.lookup]
  · simp only [apiHello, List.mem_singleton] at hr
    subst hr
    simp [loggerInfo, LogRecord.correlationId, getProp, List.lookup]
  · simp only [apiSlow, List.mem_singleton] at hr
    subst hr
    simp [loggerWarn, LogRecord.correlationId, getProp, List.lookup]
  · simp [apiError] at hr
  · simp only [clientLogs, List.mem_singleton] at hr
    subst hr
    simp [LogRecord.correlationId, getProp, List.lookup]
  · unfold apiCalc at hr
    simp only at hr
    split at hr
    · simp only [List.mem_singleton] at hr
      subst hr
      simp [loggerInfo, LogRecord.correlationId, getProp, List.lookup]
    · simp only [List.mem_singleton] at hr
      subst hr
      simp [loggerInfo, LogRecord.correlationId, getProp, List.lookup]
  · simp at hr

/-- The `finish` listener, for any status code `c`: one increment of
`http_requests_total` and one observation, both under the label set made of
`req.method`, the route and `c`, and nothing under any other label set. -/
theorem onFinish_requests_get (reg : Registry) (req : Request) (c : Nat) (l : Labels) :
    (onFinish reg req c).httpRequestsTotal.get l =
      reg.httpRequestsTotal.get l +
        (if l = ⟨req.method, (match req.route with
            | some r => r.path
            | none => req.path), c⟩ then 1 else 0) ∧
    (onFinish reg req c).httpRequestDurationMicroseconds.count l =
      reg.httpRequestDurationMicroseconds.count l +
        (if l = ⟨req.method, (match req.route with
            | some r => r.path
            | none => req.path), c⟩ then 1 else 0) := by
  constructor
  · rw [onFinish_requests]
    exact getSeries_incSeries _ _ _
  · rw [onFinish_duration]
    exact countSeries_observeSeries _ _ _ _

/-- The `finish` listener, for any status code `c`: `http_errors_total` grows by
exactly 1 under the label set made of `req.method`, the route and `c` when
`c ≥ 400`, and is left as it is when `c < 400`. -/
theorem onFinish_errors_get (reg : Registry) (req : Request) (c : Nat) (l : Labels) :
    (onFinish reg req c).httpErrorsTotal.get l =
      reg.httpErrorsTotal.get l +
        (if l = ⟨req.method, (match req.route with
            | some r => r.path
            | none => req.path), c⟩ ∧ 400 ≤ c then 1 else 0) := by
  rw [onFinish_errors]
  by_cases hc : c ≥ 400
  · rw [if_pos hc]
    have hget := getSeries_incSeries reg.httpErrorsTotal.series (finishLabels req c) l
    by_cases he : l = finishLabels req c
    · rw [if_pos ⟨he, hc⟩]
      rw [if_pos he] at hget
      exact hget
    · rw [if_neg (fun h => he h.1)]
      rw [if_neg he] at hget
      exact hget
  · rw [if_neg hc, if_neg (fun h => hc h.2)]
    rfl

/-- Requests that all reach the metrics middleware are counted once each: after `N`
of them, served from the fresh registry, `http_requests_total` summed over its label
sets is `N` and so is the observation count of the histogram; the label sets are
pairwise distinct and every other label set reads 0. -/
theorem run_counts_served_requests (rt : JsRuntime) (reqs : List Request) :
    ((run rt State.init reqs).registry.httpRequestsTotal.total = reqs.length ∧
      (run rt State.init reqs).registry.httpRequestDurationMicroseconds.totalCount =
        reqs.length) ∧
    ((run rt State.init reqs).registry.httpRequestsTotal.labelSets.Nodup ∧
      (run rt State.init reqs).registry.httpRequestDurationMicroseconds.labelSets.Nodup ∧
      ∀ l : Labels,
        (l ∉ (run rt State.init reqs).registry.httpRequestsTotal.labelSets →
          (run rt State.init reqs).registry.httpRequestsTotal.get l = 0) ∧
        (l ∉ (run rt State.init reqs).registry.httpRequestDurationMicroseconds.labelSets →
          (run rt State.init reqs).registry.httpRequestDurationMicroseconds.count l = 0)) := by
  have hn1 : State.init.registry.httpRequestsTotal.labelSets.Nodup := List.nodup_nil
  have hn2 : State.init.registry.httpRequestDurationMicroseconds.labelSets.Nodup :=
    List.nodup_nil
  obtain ⟨a, b, c, d⟩ := run_totals rt reqs State.init hn1 hn2
  have c0 : State.init.registry.httpRequestsTotal.total = 0 := rfl
  have d0 : State.init.registry.httpRequestDurationMicroseconds.totalCount = 0 := rfl
  refine ⟨⟨by rw [c, c0, Nat.zero_add], by rw [d, d0, Nat.zero_add]⟩, a, b, ?_⟩
  intro l
  exact ⟨fun h => getSeries_of_not_mem _ l h, fun h => countSeries_of_not_mem _ l h⟩

theorem app_state_of_not_reachesMetrics (rt : JsRuntime) (st : State) (inc : Incoming)
    (h : inc.reachesMetrics = false) : (app rt st inc).state = st := by
  cases inc with
  | malformedBody m p err => rfl
  | parsed req =>
    have hm : req.method = "OPTIONS" := by
      simpa [Incoming.reachesMetrics] using h
    simp [app, hm]

theorem app_state_of_reachesMetrics (rt : JsRuntime) (st : State) (inc : Incoming)
    (h : inc.reachesMetrics = true) :
    ∃ req : Request, (app rt st inc).state = (serve rt st req).state := by
  cases inc with
  | malformedBody m p err => exact absurd h (by simp [Incoming.reachesMetrics])
  | parsed req =>
    have hm : ¬ req.method = "OPTIONS" := by
      simpa [Incoming.reachesMetrics] using h
    exact ⟨req, by simp [app, hm]⟩

theorem appRun_cons (rt : JsRuntime) (st : State) (inc : Incoming) (incs : List Incoming) :
    appRun rt st (inc :: incs) = appRun rt (app rt st inc).state incs := rfl

/-- Over the whole application the two totals are the number of requests that reach
the metrics middleware, not the number of completed requests. -/
theorem appRun_totals (rt : JsRuntime) (incs : List Incoming) (st : State)
    (h1 : st.registry.httpRequestsTotal.labelSets.Nodup)
    (h2 : st.registry.httpRequestDurationMicroseconds.labelSets.Nodup) :
    (appRun rt st incs).registry.httpRequestsTotal.labelSets.Nodup ∧
    (appRun rt st incs).registry.httpRequestDurationMicroseconds.labelSets.Nodup ∧
    (appRun rt st incs).registry.httpRequestsTotal.total =
      st.registry.httpRequestsTotal.total + incs.countP Incoming.reachesMetrics ∧
    (appRun rt st incs).registry.httpRequestDurationMicroseconds.totalCount =
      st.registry.httpRequestDurationMicroseconds.totalCount +
        incs.countP Incoming.reachesMetrics := by
  induction incs generalizing st with
  | nil => exact ⟨h1, h2, rfl, rfl⟩
  | cons inc incs ih =>
    rw [appRun_cons]
    by_cases hr : inc.reachesMetrics = true
    · obtain ⟨req, hreq⟩ := app_state_of_reachesMetrics rt st inc hr
      obtain ⟨n1, n2, t1, t2⟩ := run_totals rt [req] st h1 h2
      have hrun : run rt st [req] = (serve rt st req).state := rfl
      rw [hrun, ← hreq] at n1 n2 t1 t2
      obtain ⟨a, b, c, d⟩ := ih (app rt st inc).state n1 n2
      refine ⟨a, b, ?_, ?_⟩
      · rw [c, t1, List.countP_cons_of_pos _ _ hr, List.length_singleton]
        omega
      · rw [d, t2, List.countP_cons_of_pos _ _ hr, List.length_singleton]
        omega
    · have hf : inc.reachesMetrics = false := by simpa using hr
      rw [app_state_of_not_reachesMetrics rt st inc hf]
      obtain ⟨a, b, c, d⟩ := ih st h1 h2
      refine ⟨a, b, ?_, ?_⟩
      · rw [c, List.countP_cons_of_neg _ _ hr]
      · rw [d, List.countP_cons_of_neg _ _ hr]

/-- Over the whole application, from the fresh registry, `http_errors_total` is at
most `http_requests_total` under every label set: equal to it where the code is at
least 400 and 0 elsewhere. -/
theorem appRun_errors_le_requests (rt : JsRuntime) (incs : List Incoming) (st : State)
    (h : ∀ l, st.registry.httpErrorsTotal.get l =
      if 400 ≤ l.code then st.registry.httpRequestsTotal.get l else 0) :
    ∀ l, (appRun rt st incs).registry.httpErrorsTotal.get l =
      if 400 ≤ l.code then (appRun rt st incs).registry.httpRequestsTotal.get l else 0 := by
  induction incs generalizing st with
  | nil => exact h
  | cons inc incs ih =>
    rw [appRun_cons]
    apply ih
    by_cases hr : inc.reachesMetrics = true
    · obtain ⟨req, hreq⟩ := app_state_of_reachesMetrics rt st inc hr
      rw [hreq]
      exact run_errors_invariant rt [req] st h
    · have hf : inc.reachesMetrics = false := by simpa using hr
      rw [app_state_of_not_reachesMetrics rt st inc hf]
      exact h

/-! ## The claims -/

/-- C1: on `POST /api/login`, the credentials `admin` / `1234` are answered with 200
and the body `token: fake-token`, leaving `http_login_errors_total` unchanged; every
other pair of values is answered with 401 and the body `error: Invalid credentials`,
and `http_login_errors_total` grows by exactly 1. -/
theorem login_contract (rt : JsRuntime) (st : State) (req : Request)
    (h : req.route = some Route.apiLogin) :
    ((getProp req.body "username" = JVal.str "admin" ∧
        getProp req.body "password" = JVal.str "1234") →
      (serve rt st req).response = jsonResponse 200 [("token", JVal.str "fake-token")] ∧
      (serve rt st req).state.registry.httpLoginErrorsTotal =
        st.registry.httpLoginErrorsTotal) ∧
    (¬ (getProp req.body "username" = JVal.str "admin" ∧
        getProp req.body "password" = JVal.str "1234") →
      (serve rt st req).response =
        jsonResponse 401 [("error", JVal.str "Invalid credentials")] ∧
      (serve rt st req).state.registry.httpLoginErrorsTotal =
        st.registry.httpLoginErrorsTotal + 1) := by
  have hd : dispatch rt st req = apiLogin st req := by simp [dispatch, h]
  rw [serve_response, serve_login, hd]
  constructor
  · intro hc
    have hb : ((getProp req.body "username").strictEqStr "admin" &&
        (getProp req.body "password").strictEqStr "1234") = true := by
      rw [Bool.and_eq_true, strictEqStr_iff, strictEqStr_iff]
      exact hc
    unfold apiLogin
    rw [if_pos hb]
    exact ⟨rfl, rfl⟩
  · intro hc
    have hb : ¬ ((getProp req.body "username").strictEqStr "admin" &&
        (getProp req.body "password").strictEqStr "1234") = true := by
      rw [Bool.and_eq_true, strictEqStr_iff, strictEqStr_iff]
      exact hc
    unfold apiLogin
    rw [if_neg hb]
    exact ⟨rfl, rfl⟩

/-- Witness of C1: the accepted pair gets the token, and the password sent as the
number 1234 gets 401 with one more login error. -/
theorem login_contract_witness :
    ((serve exampleRuntime State.init loginAdmin).response =
        jsonResponse 200 [("token", JVal.str "fake-token")] ∧
      (serve exampleRuntime State.init loginAdmin).state.registry.httpLoginErrorsTotal =
        State.init.registry.httpLoginErrorsTotal) ∧
    ((serve exampleRuntime State.init loginNumericPassword).response =
        jsonResponse 401 [("error", JVal.str "Invalid credentials")] ∧
      (serve exampleRuntime State.init loginNumericPassword).state.registry.httpLoginErrorsTotal =
        State.init.registry.httpLoginErrorsTotal + 1) :=
  ⟨(login_contract exampleRuntime State.init loginAdmin rfl).1 ⟨rfl, rfl⟩,
   (login_contract exampleRuntime State.init loginNumericPassword rfl).2
     (fun hc => JVal.noConfusion hc.2)⟩

/-- C2: starting from the initial state, after any requests of which `n` are calls of
`POST /toggle-ready`, the readiness flag is set iff `n` is even; `GET /readyz` then
answers 200 `READY` for even `n` and 503 `NOT_READY` for odd `n`; and one more toggle
call answers 200 with the state it has just produced, which is `READY` iff `n + 1` is
even. -/
theorem toggle_ready_parity (rt : JsRuntime) (reqs : List Request) (q t : Request)
    (hq : q.route = some Route.readyz) (ht : t.route = some Route.toggleReady) :
    ((run rt State.init reqs).isReady = true ↔
      (reqs.countP (fun r => decide (r.route = some Route.toggleReady))) % 2 = 0) ∧
    (serve rt (run rt State.init reqs) q).response =
      (if (reqs.countP (fun r => decide (r.route = some Route.toggleReady))) % 2 = 0
       then jsonResponse 200 [("status", JVal.str "READY")]
       else jsonResponse 503 [("status", JVal.str "NOT_READY")]) ∧
    (serve rt (run rt State.init reqs) t).response =
      jsonResponse 200 [("status", JVal.str
        (if ((reqs.countP (fun r => decide (r.route = some Route.toggleReady))) + 1) % 2 = 0
         then "READY" else "NOT_READY"))] := by
  have hrun := run_isReady rt reqs State.init
  have hinit : State.init.isReady = true := rfl
  have hdq : dispatch rt (run rt State.init reqs) q = readyz (run rt State.init reqs) q := by
    simp [dispatch, hq]
  have hdt : dispatch rt (run rt State.init reqs) t =
      toggleReady (run rt State.init reqs) t := by
    simp [dispatch, ht]
  rw [serve_response, serve_response, hdq, hdt]
  by_cases hp : (reqs.countP (fun r => decide (r.route = some Route.toggleReady))) % 2 = 0
  · have hp2 : ¬ ((reqs.countP (fun r => decide (r.route = some Route.toggleReady))) + 1) % 2
        = 0 := by omega
    rw [if_pos hp, hinit] at hrun
    refine ⟨⟨fun _ => hp, fun _ => hrun⟩, ?_, ?_⟩
    · rw [if_pos hp]
      unfold readyz
      rw [if_pos hrun]
      rfl
    · rw [if_neg hp2]
      simp [toggleReady, settle, hrun]
  · have hp2 : ((reqs.countP (fun r => decide (r.route = some Route.toggleReady))) + 1) % 2
        = 0 := by omega
    rw [if_neg hp, hinit] at hrun
    have hrun2 : (run rt State.init reqs).isReady = false := by simpa using hrun
    refine ⟨⟨fun h => by rw [hrun2] at h; exact Bool.noConfusion h, fun h => absurd h hp⟩, ?_, ?_⟩
    · rw [if_neg hp]
      unfold readyz
      rw [if_neg (by rw [hrun2]; exact Bool.false_ne_true)]
      rfl
    · rw [if_pos hp2]
      simp [toggleReady, settle, hrun2]

/-- Witness of C2: initially `READY`, after one toggle `NOT_READY`, after two toggles
`READY` again, and the second toggle call itself answers 200 `READY`. -/
theorem toggle_ready_parity_witness :
    (serve exampleRuntime (run exampleRuntime State.init []) readyzRequest).response =
      jsonResponse 200 [("status", JVal.str "READY")] ∧
    (serve exampleRuntime (run exampleRuntime State.init [toggleRequest]) readyzRequest).response =
      jsonResponse 503 [("status", JVal.str "NOT_READY")] ∧
    (serve exampleRuntime (run exampleRuntime State.init [toggleRequest, toggleRequest])
      readyzRequest).response = jsonResponse 200 [("status", JVal.str "READY")] ∧
    (serve exampleRuntime (run exampleRuntime State.init [toggleRequest])
      toggleRequest).response = jsonResponse 200 [("status", JVal.str "READY")] :=
  ⟨(toggle_ready_parity exampleRuntime [] readyzRequest toggleRequest rfl rfl).2.1,
   (toggle_ready_parity exampleRuntime [toggleRequest] readyzRequest toggleRequest rfl rfl).2.1,
   (toggle_ready_parity exampleRuntime [toggleRequest, toggleRequest] readyzRequest
     toggleRequest rfl rfl).2.1,
   (toggle_ready_parity exampleRuntime [toggleRequest] readyzRequest toggleRequest rfl rfl).2.2⟩

/-- C3: for query strings `a` and `b` that look like numbers (they are then non-empty,
which is all the handler needs) and for every `op`, present or absent, `GET /api/calc`
answers 200 with `result` equal to `Number(a) + Number(b)`; replacing `op` by any other
value leaves the response unchanged. -/
theorem calc_adds (rt : JsRuntime) (st : State) (req : Request) (a b : String)
    (h : req.route = some Route.apiCalc)
    (ha : req.query.a = some a) (hb : req.query.b = some b)
    (hane : a ≠ "") (hbne : b ≠ "") :
    (serve rt st req).response =
      jsonResponse 200 [("result", JVal.num (rt.add (rt.toNumber a) (rt.toNumber b)))] ∧
    ∀ op : Option String,
      (serve rt st { req with query := { req.query with op := op } }).response =
        (serve rt st req).response := by
  have hc : ¬ ((req.query.a = none ∨ req.query.a = some "") ∨
      (req.query.b = none ∨ req.query.b = some "")) := by
    rw [ha, hb]
    simp [hane, hbne]
  constructor
  · rw [serve_calc_response rt st req h, if_neg hc, ha, hb]
    rfl
  · intro op
    exact (serve_calc_response rt st { req with query := { req.query with op := op } } h).trans
      (serve_calc_response rt st req h).symm

/-- Witness of C3: `a=2`, `b=3`, `op=mul` is answered with the sum, not the product. -/
theorem calc_adds_witness :
    (serve exampleRuntime State.init calcTwoThree).response =
      jsonResponse 200 [("result", JVal.num
        (exampleRuntime.add (exampleRuntime.toNumber "2") (exampleRuntime.toNumber "3")))] ∧
    (serve exampleRuntime State.init
      { calcTwoThree with query := { calcTwoThree.query with op := none } }).response =
      (serve exampleRuntime State.init calcTwoThree).response :=
  ⟨(calc_adds exampleRuntime State.init calcTwoThree "2" "3" rfl rfl rfl
      (by decide) (by decide)).1,
   (calc_adds exampleRuntime State.init calcTwoThree "2" "3" rfl rfl rfl
      (by decide) (by decide)).2 none⟩

/-- C4 as stated fails: for `GET /api/calc?a=&b=3` both parameters are present, yet the
answer is 400. -/
theorem calc_missing_params_counterexample :
    ¬ ((serve exampleRuntime State.init calcEmptyA).response.status = 400 ↔
      (calcEmptyA.query.a = none ∨ calcEmptyA.query.b = none)) := by
  intro hiff
  have h400 : (serve exampleRuntime State.init calcEmptyA).response.status = 400 := by
    rw [serve_calc_response exampleRuntime State.init calcEmptyA rfl]
    rfl
  rcases hiff.mp h400 with hq | hq
  · exact Option.noConfusion hq
  · exact Option.noConfusion hq

/-- C4, amended: `GET /api/calc` answers 400 with the body `error: Missing params`
exactly when `a` or `b` is absent or the empty string; otherwise, with both present and
non-empty, it answers 200 with a `result` body. -/
theorem calc_missing_params (rt : JsRuntime) (st : State) (req : Request)
    (h : req.route = some Route.apiCalc) :
    ((serve rt st req).response = jsonResponse 400 [("error", JVal.str "Missing params")] ↔
      ((req.query.a = none ∨ req.query.a = some "") ∨
        (req.query.b = none ∨ req.query.b = some ""))) ∧
    ((serve rt st req).response.status = 400 ↔
      ((req.query.a = none ∨ req.query.a = some "") ∨
        (req.query.b = none ∨ req.query.b = some ""))) ∧
    (¬ ((req.query.a = none ∨ req.query.a = some "") ∨
        (req.query.b = none ∨ req.query.b = some "")) →
      (serve rt st req).response =
        jsonResponse 200 [("result", JVal.num
          (rt.add (numberOfQuery rt req.query.a) (numberOfQuery rt req.query.b)))]) := by
  rw [serve_calc_response rt st req h]
  by_cases hc : (req.query.a = none ∨ req.query.a = some "") ∨
      (req.query.b = none ∨ req.query.b = some "")
  · rw [if_pos hc]
    exact ⟨⟨fun _ => hc, fun _ => rfl⟩, ⟨fun _ => hc, fun _ => rfl⟩, fun hn => absurd hc hn⟩
  · rw [if_neg hc]
    refine ⟨⟨fun he => ?_, fun h2 => absurd h2 hc⟩, ⟨fun he => ?_, fun h2 => absurd h2 hc⟩,
      fun _ => rfl⟩
    · have hs := congrArg Response.status he
      simp [jsonResponse] at hs
    · simp [jsonResponse] at he

/-- Witness of C4, amended: the empty `a` is answered with 400, and `a=2`, `b=3` with
200 and a result. -/
theorem calc_missing_params_witness :
    (serve exampleRuntime State.init calcEmptyA).response =
      jsonResponse 400 [("error", JVal.str "Missing params")] ∧
    (serve exampleRuntime State.init calcTwoThree).response =
      jsonResponse 200 [("result", JVal.num
        (exampleRuntime.add (numberOfQuery exampleRuntime calcTwoThree.query.a)
          (numberOfQuery exampleRuntime calcTwoThree.query.b)))] :=
  ⟨(calc_missing_params exampleRuntime State.init calcEmptyA rfl).1.mpr
      (Or.inl (Or.inr rfl)),
   (calc_missing_params exampleRuntime State.init calcTwoThree rfl).2.2 (by decide)⟩

/-- C5 on the code: `OPTIONS /api/hello` is one completed request, answered 204 by
`cors()` before the metrics middleware is reached. After it, from the fresh registry,
`http_requests_total` has no series, its sum over all label sets is 0 and so is the
observation count of `http_request_duration_seconds`, where `N` is 1. -/
theorem options_request_not_counted :
    (app exampleRuntime State.init optionsHello).response.status = 204 ∧
    [optionsHello].length = 1 ∧
    (appRun exampleRuntime State.init [optionsHello]).registry.httpRequestsTotal.series = [] ∧
    (appRun exampleRuntime State.init [optionsHello]).registry.httpRequestsTotal.total = 0 ∧
    (appRun exampleRuntime State.init
      [optionsHello]).registry.httpRequestDurationMicroseconds.totalCount = 0 ∧
    (app exampleRuntime State.init optionsHello).accessLog.isNone = true := by
  refine ⟨?_, rfl, ?_, ?_, ?_, ?_⟩ <;>
    simp [appRun, app, optionsHello, exampleRequest, State.init, Registry.fresh,
      Counter.empty, Histogram.empty, Counter.total, Counter.labelSets,
      Histogram.totalCount, Histogram.labelSets]

/-- C9 on the code: `POST /api/login` with a JSON body that breaks off is a completed
request with method `POST`, path `/api/login` and status code 500, answered by the
error stage with the metrics middleware skipped. `http_errors_total` is left without
any series: it reads 0 under `(POST, /api/login, 500)`, and so does
`http_requests_total`. -/
theorem malformed_body_error_not_counted :
    (app exampleRuntime State.init malformedLogin).response =
      jsonResponse 500 [("error", JVal.str "Unexpected end of JSON input")] ∧
    (app exampleRuntime State.init malformedLogin).state.registry.httpErrorsTotal.series = [] ∧
    (app exampleRuntime State.init malformedLogin).state.registry.httpErrorsTotal.get
      ⟨"POST", "/api/login", 500⟩ = 0 ∧
    (app exampleRuntime State.init malformedLogin).state.registry.httpRequestsTotal.get
      ⟨"POST", "/api/login", 500⟩ = 0 ∧
    (app exampleRuntime State.init malformedLogin).errorLogs.map LogRecord.correlationId =
      [JVal.undefined] := by
  refine ⟨rfl, rfl, rfl, rfl, ?_⟩
  simp [app, malformedLogin, errorHandler, loggerError, LogRecord.correlationId, getProp,
    List.lookup]

/-- C6: whatever error a handler raises, the terminal error stage answers with status
500 and the JSON body `error: <the message of the error>`; `GET /api/error`, whose
handler always throws, is answered with 500 and `error: Simulated Backend Failure`; and
the pipeline goes on serving: the readiness flag is untouched and every later request
other than a metrics scrape gets the response it would have got without the failure. -/
theorem error_stage_contract (rt : JsRuntime) (st : State) (req : Request)
    (h : req.route = some Route.apiError) :
    (∀ (err : JsError) (anyReq : Request),
      (errorStage err anyReq).2 = jsonResponse 500 [("error", JVal.str err.message)]) ∧
    (∀ (res : HandlerResult) (err : JsError) (anyReq : Request),
      res.result = Except.error err →
        settle res anyReq =
          ([(errorStage err anyReq).1], jsonResponse 500 [("error", JVal.str err.message)])) ∧
    (serve rt st req).response =
      jsonResponse 500 [("error", JVal.str "Simulated Backend Failure")] ∧
    (serve rt st req).state.isReady = st.isReady ∧
    (∀ next : Request, next.route ≠ some Route.metrics →
      (serve rt (serve rt st req).state next).response = (serve rt st next).response) := by
  have hready : (serve rt st req).state.isReady = st.isReady := by
    rw [serve_isReady, h]
    simp
  refine ⟨fun _ _ => rfl, ?_, ?_, hready, ?_⟩
  · intro res err anyReq hres
    unfold settle
    rw [hres]
    rfl
  · have hd : dispatch rt st req = apiError st req := by simp [dispatch, h]
    rw [serve_response, hd]
    rfl
  · intro next hnext
    rw [serve_response, serve_response]
    unfold settle
    rw [dispatch_result_of_isReady rt _ st next hready hnext]

/-- Witness of C6: `GET /api/error` on the initial state is answered with 500, and a
following `GET /healthz` is answered as if nothing had happened. -/
theorem error_stage_contract_witness :
    (serve exampleRuntime State.init errorRequest).response =
      jsonResponse 500 [("error", JVal.str "Simulated Backend Failure")] ∧
    (serve exampleRuntime (serve exampleRuntime State.init errorRequest).state
      healthzRequest).response = (serve exampleRuntime State.init healthzRequest).response :=
  ⟨(error_stage_contract exampleRuntime State.init errorRequest rfl).2.2.1,
   (error_stage_contract exampleRuntime State.init errorRequest rfl).2.2.2.2 healthzRequest
     (by decide)⟩

/-- C7 on the code: for `GET /api/hello` with correlation id
`7f3c9a52-1b0e-4c55-9a59-0d6f3b2e8c11` the response body carries that id as `cid`, the
handler-level record carries it too, but the access-log record carries `N/A`. -/
theorem hello_access_log_correlation_id :
    (serve exampleRuntime State.init helloRequest).response =
      jsonResponse 200 [("message", JVal.str "Hello World"),
        ("cid", JVal.str "7f3c9a52-1b0e-4c55-9a59-0d6f3b2e8c11")] ∧
    (serve exampleRuntime State.init helloRequest).handlerLogs.map LogRecord.correlationId =
      [JVal.str "7f3c9a52-1b0e-4c55-9a59-0d6f3b2e8c11"] ∧
    (serve exampleRuntime State.init helloRequest).accessLog.correlationId = JVal.str "N/A" ∧
    JVal.str "N/A" ≠ JVal.str "7f3c9a52-1b0e-4c55-9a59-0d6f3b2e8c11" := by
  refine ⟨rfl, ?_, serve_accessLog_correlationId _ _ _, ?_⟩
  · simp [serve, dispatch, helloRequest, exampleRequest, apiHello, loggerInfo,
      LogRecord.correlationId, getProp, List.lookup]
  · intro hEq
    have hs := JVal.str.inj hEq
    exact absurd hs (by decide)

/-- C8 as stated fails: for `GET /api/error` the error response body is
`error: Simulated Backend Failure`; none of its properties is a string in which the
correlation id occurs. -/
theorem correlation_id_everywhere_counterexample :
    ¬ ((∀ r ∈ (serve exampleRuntime State.init errorRequest).handlerLogs ++
          [(serve exampleRuntime State.init errorRequest).accessLog] ++
          (serve exampleRuntime State.init errorRequest).errorLogs,
        r.correlationId = JVal.str errorRequest.correlationId) ∧
      (∃ o : JsObject, (serve exampleRuntime State.init errorRequest).response.body =
          Body.json o ∧
        ∃ kv ∈ o, ∃ text : String, kv.2 = JVal.str text ∧
          errorRequest.correlationId.data <:+: text.data)) := by
  rintro ⟨_, o, ho, kv, hkv, text, hv, hinfix⟩
  have hb : (serve exampleRuntime State.init errorRequest).response.body =
      Body.json [("error", JVal.str "Simulated Backend Failure")] := rfl
  rw [hb] at ho
  have ho2 := Body.json.inj ho
  rw [← ho2, List.mem_singleton] at hkv
  rw [hkv] at hv
  have hs := JVal.str.inj hv
  rw [← hs] at hinfix
  have hlen := hinfix.length_le
  exact absurd hlen (by decide)

/-- C8, amended: for every request, every record logged by its handler and the record
logged by the error stage carry the correlation id attached to the request; when the
handler throws, the response is 500 with the body `error: <message>` and nothing else. -/
theorem correlation_id_in_handler_and_error_logs (rt : JsRuntime) (st : State) (req : Request) :
    (∀ r ∈ (serve rt st req).handlerLogs, r.correlationId = JVal.str req.correlationId) ∧
    (∀ r ∈ (serve rt st req).errorLogs, r.correlationId = JVal.str req.correlationId) ∧
    (∀ err : JsError, (dispatch rt st req).result = Except.error err →
      (serve rt st req).errorLogs.length = 1 ∧
      (serve rt st req).response = jsonResponse 500 [("error", JVal.str err.message)]) := by
  refine ⟨dispatch_logs_correlationId rt st req, ?_, ?_⟩
  · intro r hr
    have he : (serve rt st req).errorLogs = (settle (dispatch rt st req) req).1 := rfl
    rw [he] at hr
    unfold settle at hr
    split at hr
    · simp at hr
    · simp only [List.mem_singleton] at hr
      subst hr
      simp [errorStage, errorHandler, loggerError, LogRecord.correlationId, getProp, List.lookup]
  · intro err herr
    have he : (serve rt st req).errorLogs = (settle (dispatch rt st req) req).1 := rfl
    rw [he, serve_response]
    unfold settle
    rw [herr]
    exact ⟨rfl, rfl⟩

/-- Witness of C8, amended: the record logged by the handler of `GET /api/hello` and the
record logged by the error stage for `GET /api/error` carry the request's id, and the
error response is 500 with the message alone. -/
theorem correlation_id_in_handler_and_error_logs_witness :
    (loggerInfo [("message", JVal.str "Hello endpoint called"),
        ("correlationId", JVal.str helloRequest.correlationId)]).correlationId =
      JVal.str helloRequest.correlationId ∧
    (errorStage ⟨"Simulated Backend Failure", "Error: Simulated Backend Failure"⟩
        errorRequest).1.correlationId = JVal.str errorRequest.correlationId ∧
    (serve exampleRuntime State.init errorRequest).response =
      jsonResponse 500 [("error", JVal.str "Simulated Backend Failure")] :=
  ⟨(correlation_id_in_handler_and_error_logs exampleRuntime State.init helloRequest).1 _
      (List.mem_singleton.mpr rfl),
   (correlation_id_in_handler_and_error_logs exampleRuntime State.init errorRequest).2.1 _
      (List.mem_singleton.mpr rfl),
   ((correlation_id_in_handler_and_error_logs exampleRuntime State.init errorRequest).2.2
      ⟨"Simulated Backend Failure", "Error: Simulated Backend Failure"⟩ rfl).2⟩

/-- C10: for a line rendered from the format
`:method :url :status :res[content-length] - :response-time ms`, with or without the
newline morgan appends, whose method is non-empty and free of white space and whose other
four tokens contain no space, the stream writer logs a record whose `method`, `url` and
`status` are the first three tokens and whose `durationMs` is the response-time token:
index 5 is neither the content length nor the literal `ms`. -/
theorem streamWrite_morganLine (method url status contentLength responseTime : String)
    (newline : Bool)
    (hm0 : method ≠ "")
    (hm : ∀ c ∈ method.data, jsIsWhiteSpace c = false)
    (hu : ∀ c ∈ url.data, c ≠ ' ')
    (hs : ∀ c ∈ status.data, c ≠ ' ')
    (hl : ∀ c ∈ contentLength.data, c ≠ ' ')
    (hr : ∀ c ∈ responseTime.data, c ≠ ' ') :
    streamWrite (morganLine method url status contentLength responseTime ++
        (if newline then "\n" else "")) =
      loggerInfo
        [("message", JVal.str "HTTP Request"),
         ("method", JVal.str method),
         ("url", JVal.str url),
         ("status", JVal.str status),
         ("durationMs", JVal.str responseTime),
         ("correlationId", JVal.str "N/A")] := by
  unfold streamWrite
  simp only
  rw [jsSplit_morganLine method url status contentLength responseTime newline hm0 hm hu hs hl hr]
  rfl

/-- Witness of C10: the line `GET /api/hello 200 63 - 3.214 ms` followed by a newline. -/
theorem streamWrite_morganLine_witness :
    streamWrite (morganLine "GET" "/api/hello" "200" "63" "3.214" ++
        (if true then "\n" else "")) =
      loggerInfo
        [("message", JVal.str "HTTP Request"),
         ("method", JVal.str "GET"),
         ("url", JVal.str "/api/hello"),
         ("status", JVal.str "200"),
         ("durationMs", JVal.str "3.214"),
         ("correlationId", JVal.str "N/A")] :=
  streamWrite_morganLine "GET" "/api/hello" "200" "63" "3.214" true (by decide) (by decide)
    (by decide) (by decide) (by decide) (by decide)

end ObsLab
